import Mathlib

/-
  Verification development for gns3-converter (gns3converter/converter.py).

  The data model and operations below are shallow embeddings of the
  functions of the Converter class.  Python dicts representing nodes,
  ports and links are embedded as Lean structures whose fields are the
  keys the code reads and writes; an optional key is an Option field
  (none = key absent).  Python lists are Lean lists; in-place mutation
  is explicit state passing.

  Modules of the repository that are not part of the provided source
  (gns3converter/adapters.py, interfaces.py, node.py, topology.py) are
  modelled from the spec; each such definition carries a doc comment
  starting with "Modelled from the spec:".
-/

namespace Gns3

/-- A port dict as built by the Node builder: id, name, and the optional
link_id / description keys that add_node_connections fills in later
(none = key absent). -/
structure Port where
  id : Nat
  name : String
  link_id : Option Nat := none
  description : Option String := none
deriving DecidableEq, Repr

/-- A node dict as consumed by the Link Resolver: node id, properties.name,
the top-level type key (checked against Cloud in convert_destination_to_id)
and the ports list. -/
structure Node where
  id : Nat
  name : String
  type : String
  ports : List Port
deriving DecidableEq, Repr

/-- One entry of Converter.links: a candidate link emitted while building a
Router or Cloud node, with the keys generate_links reads. -/
structure CandidateLink where
  source_node_id : Nat
  source_port_id : Nat
  source_port_name : String
  source_dev : String
  dest_dev : String
  dest_port : String
deriving DecidableEq, Repr

/-- A resolved link dict as appended by generate_links.  The id key is
absent (none) until the dedup loop assigns it. -/
structure Link where
  description : String
  destination_node_id : Option Nat
  destination_port_id : Option Nat
  source_port_id : Nat
  source_node_id : Nat
  id : Option Nat := none
deriving DecidableEq, Repr

/-- The device dict returned by convert_destination_to_id together with the
port id: keys id and name of the returned device dict, and port_id. -/
structure DestInfo where
  device_id : Option Nat
  device_name : Option String
  port_id : Option Nat
deriving DecidableEq, Repr

/- ---------------------------------------------------------------
   Lexicographic string order and insertion sort, embedding Python's
   sorted() on code points (stable; keys in these dicts are unique).
   --------------------------------------------------------------- -/

/-- Strict lexicographic order on char lists by code point, as Python
compares strings. -/
def strLtL : List Char → List Char → Bool
  | [], [] => false
  | [], _ :: _ => true
  | _ :: _, [] => false
  | a :: as, b :: bs =>
    if a.toNat < b.toNat then true
    else if b.toNat < a.toNat then false
    else strLtL as bs

/-- Non-strict lexicographic order on strings. -/
def strLe (a b : String) : Bool := !(strLtL b.toList a.toList)

/-- Insert an element into a list before the first element it is le to
(the insertion step of a stable insertion sort). -/
def insertLe (le : α → α → Bool) (a : α) : List α → List α
  | [] => [a]
  | b :: bs => if le a b then a :: b :: bs else b :: insertLe le a bs

/-- Stable insertion sort, embedding Python's sorted(). -/
def sortLe (le : α → α → Bool) : List α → List α
  | [] => []
  | a :: as => insertLe le a (sortLe le as)

/- ---------------------------------------------------------------
   Port-name expansion (generate_links lines 204-210).
   --------------------------------------------------------------- -/

/-- Modelled from the spec: the static adapter short-code table PORT_TYPES
(gns3converter/adapters.py, not under src/), mapping a short letter code to
the canonical adapter-type name; the spec names the Ethernet expansion and
describes the table as adapter-short-code to canonical-name data. -/
def PORT_TYPES (c : Char) : Option String :=
  if c = 'E' then some ("Ethernet")
  else if c = 'F' then some ("FastEthernet")
  else if c = 'G' then some ("GigabitEthernet")
  else if c = 'A' then some ("ATM")
  else if c = 'S' then some ("Serial")
  else if c = 'P' then some ("POS")
  else none

/-- Replace every occurrence of a character in a string, embedding Python
str.replace for a one-character pattern (generate_links always calls
replace with the single leading character of the port name). -/
def replaceChar (s : String) (c : Char) (r : String) : String :=
  String.mk (s.toList.foldr
    (fun ch acc => if ch = c then r.toList ++ acc else ch :: acc) [])

/-- Modelled from the spec: INTERFACE_RE (gns3converter/interfaces.py, not
under src/) recognises a known short letter code followed by numeric
addressing. -/
def interfaceShorthand (s : String) : Bool :=
  match s.toList with
  | c :: d :: _ => (PORT_TYPES c.toUpper).isSome && d.isDigit
  | _ => false

/-- The port-name expansion of generate_links: when the destination port
name matches the interface shorthand, the leading short code is replaced
by its canonical adapter-type name; otherwise the name is unchanged. -/
def expand_dest_port (p : String) : String :=
  match p.toList with
  | c :: _ =>
    if interfaceShorthand p then
      match PORT_TYPES c.toUpper with
      | some full => replaceChar p c full
      | none => p
    else p
  | [] => p

/- ---------------------------------------------------------------
   Converter.convert_destination_to_id (lines 277-311).
   --------------------------------------------------------------- -/

/-- Embedding of Converter.convert_destination_to_id.  For a named
destination the first node with that properties.name is taken and its
ports searched; for the NIO sentinel the loop body runs for the first
node of type Cloud and then breaks unconditionally (the break at line 308
sits inside the if, so only the first Cloud node is ever examined). -/
def convert_destination_to_id (destination_node destination_port : String)
    (nodes : List Node) : DestInfo :=
  if destination_node ≠ ("NIO") then
    match nodes.find? (fun n => n.name == destination_node) with
    | some n =>
      { device_id := some n.id
        device_name := some destination_node
        port_id := (n.ports.find? (fun p => p.name == destination_port)).map
          (fun p => p.id) }
    | none => { device_id := none, device_name := none, port_id := none }
  else
    match nodes.find? (fun n => n.type == ("Cloud")) with
    | some n =>
      match n.ports.find? (fun p => p.name == destination_port) with
      | some p =>
        { device_id := some n.id, device_name := some n.name,
          port_id := some p.id }
      | none => { device_id := none, device_name := none, port_id := none }
    | none => { device_id := none, device_name := none, port_id := none }

/- ---------------------------------------------------------------
   Converter.generate_links (lines 195-241).
   --------------------------------------------------------------- -/

/-- Render an optional id the way Python str() renders None or an int
inside the t_link / d_link comparison strings. -/
def optStr : Option Nat → String
  | none => "None"
  | some n => toString n

/-- The t_link comparison key of the dedup loop (source endpoint pair).
Python builds the string str(source_node_id) + colon + str(source_port_id);
the encoding is injective (neither component contains a colon and None is
not a digit string), so the pair itself is the comparison key. -/
def tlink (l : Link) : Option Nat × Option Nat :=
  (some l.source_node_id, some l.source_port_id)

/-- The d_link comparison key of the dedup loop (destination endpoint
pair), with the same injective-encoding remark as tlink. -/
def dlink (l : Link) : Option Nat × Option Nat :=
  (l.destination_node_id, l.destination_port_id)

/-- Index of the first element satisfying a predicate. -/
def findD (p : Link → Bool) : List Link → Option Nat
  | [] => none
  | l :: ls => if p l then some 0 else (findD p ls).map (· + 1)

/-- Remove the element at an index, embedding list.remove of the matched
dict: Python removes the first dict equal to links[j], and since equal
dicts share their destination fields, the first equal dict is links[j]
itself (j being the first index whose d_link matches). -/
def removeAt : List Link → Nat → List Link
  | [], _ => []
  | _ :: ls, 0 => ls
  | l :: ls, j + 1 => l :: removeAt ls j

/-- Assign the id key of the link object at an index, embedding the
statement link['id'] = link_id on the dict sitting at that position. -/
def setIdAt : List Link → Nat → Nat → List Link
  | [], _, _ => []
  | l :: ls, 0, v => { l with id := some v } :: ls
  | l :: ls, j + 1, v => l :: setIdAt ls j v

/-- The dedup-and-number loop of generate_links (lines 227-238), embedded
as Python executes it: a cursor i walks the live list; the body fetches
links[i], removes the first link whose d_link equals its t_link (shifting
later elements down), then assigns the id key on the fetched dict object -
which after a removal at an index at or before i is no longer at i (or no
longer in the list at all).  The fuel argument is the initial list length;
since i grows by one per iteration and the list never grows, the loop
always finishes within that many iterations (dedupGo_fuel below). -/
def dedupGo : Nat → List Link → Nat → Nat → List Link
  | 0, links, _, _ => links
  | fuel + 1, links, i, next_id =>
    if h : i < links.length then
      match findD (fun l2 => dlink l2 == tlink (links.get ⟨i, h⟩)) links with
      | some j =>
        let links' := removeAt links j
        if j = i then dedupGo fuel links' (i + 1) (next_id + 1)
        else if j < i then
          dedupGo fuel (setIdAt links' (i - 1) next_id) (i + 1) (next_id + 1)
        else
          dedupGo fuel (setIdAt links' i next_id) (i + 1) (next_id + 1)
      | none => dedupGo fuel (setIdAt links i next_id) (i + 1) (next_id + 1)
    else links

/-- The resolution step of generate_links (lines 203-224) for one candidate
link: expand the destination port name, resolve the destination endpoint,
build the description string and the link dict (Python renders a None
device name as the string None inside the description). -/
def resolve_candidate (nodes : List Node) (c : CandidateLink) : Link :=
  let dest_port := expand_dest_port c.dest_port
  let r := convert_destination_to_id c.dest_dev dest_port nodes
  { description := ("Link from ") ++ c.source_dev ++ (" port ")
      ++ c.source_port_name ++ (" to ")
      ++ (match r.device_name with | some s => s | none => ("None"))
      ++ (" port ") ++ dest_port
    destination_node_id := r.device_id
    destination_port_id := r.port_id
    source_port_id := c.source_port_id
    source_node_id := c.source_node_id
    id := none }

/-- Embedding of Converter.generate_links: resolve every candidate link in
order, then run the dedup-and-number loop on the resulting list.  The
add_node_connections calls inside the loop mutate only the node dicts,
never the links list, so the returned list is unaffected by them; the node
mutation is embedded separately as add_node_connections below. -/
def generate_links (cands : List CandidateLink) (nodes : List Node) :
    List Link :=
  let links := cands.map (resolve_candidate nodes)
  dedupGo links.length links 0 1

/- ---------------------------------------------------------------
   Converter.get_node_name_from_id / get_port_name_from_id /
   add_node_connections (lines 313-378).
   --------------------------------------------------------------- -/

/-- Embedding of Converter.get_node_name_from_id: name of the first node
with the given id, or the empty string.  The argument is an Option because
the function is called with link destination ids, which may be None;
Python's == between None and an int is False. -/
def get_node_name_from_id (node_id : Option Nat) (nodes : List Node) :
    String :=
  match nodes.find? (fun n => some n.id == node_id) with
  | some n => n.name
  | none => ("")

/-- Embedding of Converter.get_port_name_from_id.  The outer node loop has
no break, so when several nodes share the id the last node holding a
matching port wins; within one node the inner loop breaks at the first
matching port. -/
def get_port_name_from_id (node_id port_id : Option Nat)
    (nodes : List Node) : String :=
  nodes.foldl (fun acc n =>
    if some n.id == node_id then
      match n.ports.find? (fun p => some p.id == port_id) with
      | some p => p.name
      | none => acc
    else acc) ("")

/-- The inner port loop of add_node_connections: set link_id and
description on the first port with the given id, then break. -/
def annotate_port (pid : Option Nat) (lid : Option Nat) (d : String) :
    List Port → List Port
  | [] => []
  | p :: ps =>
    if some p.id == pid then
      { p with link_id := lid, description := some d } :: ps
    else p :: annotate_port pid lid d ps

/-- The src_desc string of add_node_connections (lines 353-358): the
source port is annotated with the destination's node and port names. -/
def src_desc (link : Link) (nodes : List Node) : String :=
  ("connected to ")
    ++ get_node_name_from_id link.destination_node_id nodes
    ++ (" on port ")
    ++ get_port_name_from_id link.destination_node_id
         link.destination_port_id nodes

/-- The dest_desc string of add_node_connections (lines 359-364): the
destination port is annotated with the source's node and port names. -/
def dest_desc (link : Link) (nodes : List Node) : String :=
  ("connected to ")
    ++ get_node_name_from_id (some link.source_node_id) nodes
    ++ (" on port ")
    ++ get_port_name_from_id (some link.source_node_id)
         (some link.source_port_id) nodes

/-- Embedding of Converter.add_node_connections (lines 346-378).  Each node
is tested first against the source node id; only when that fails (elif)
against the destination node id - so for a self link (equal node ids) the
destination branch is unreachable on that node. -/
def add_node_connections (link : Link) (nodes : List Node) : List Node :=
  nodes.map (fun n =>
    if n.id = link.source_node_id then
      { n with ports := (annotate_port (some link.source_port_id) link.id
          (src_desc link nodes) n.ports) }
    else if some n.id = link.destination_node_id then
      { n with ports := (annotate_port link.destination_port_id link.id
          (dest_desc link nodes) n.ports) }
    else n)

/- ---------------------------------------------------------------
   Converter.get_instances (lines 111-128).
   --------------------------------------------------------------- -/

/-- Embedding of Converter.get_instances.  The configuration is embedded as
its list of section keys; ipaddress.ip_address is the Python standard
library (external to the repository), so its success on a string is
abstracted as the valid_ip predicate.  A key containing a colon has the
text before the first colon tested; a ValueError from ip_address is caught
and the key skipped, so the function raises for no key. -/
def get_instances (valid_ip : String → Bool) (config : List String) :
    List String :=
  (sortLe strLe config).foldl (fun instances item =>
    if item.contains ':' then
      if valid_ip (item.takeWhile (fun ch => ch ≠ ':')) then
        instances ++ [item]
      else instances
    else instances) []

/-- The claim-side characterisation of get_instances, written from the
claim: exactly the keys, in sorted order, that contain a colon and whose
text before the first colon is a valid address. -/
def get_instances_spec (valid_ip : String → Bool) (config : List String) :
    List String :=
  (sortLe strLe config).filter (fun item =>
    item.contains ':' && valid_ip (item.takeWhile (fun ch => ch ≠ ':')))

/- ---------------------------------------------------------------
   Converter.process_topology (lines 89-109).
   --------------------------------------------------------------- -/

/-- A value of the raw nested mapping: an item is either a dict of
attribute key-value pairs or a non-dict scalar. -/
inductive PyVal
  | dict (attrs : List (String × String))
  | scalar (s : String)
deriving DecidableEq, Repr

/-- Modelled from the spec: one DeviceRecord of the Topology Grouper
(LegacyTopology lives in gns3converter/topology.py, not under src/):
the accumulated attributes of one device name plus its host-instance
index hv_id. -/
structure LegacyDevice where
  hv_id : Nat
  attrs : List (String × String)
deriving DecidableEq, Repr

/-- Modelled from the spec: the LegacyTopology accumulator
(gns3converter/topology.py, not under src/): the hv_id counter (starting
at 0, the position in the sorted instance list), the DeviceRecord map and
the routed configuration items. -/
structure LegacyTopology where
  hv_id : Nat
  devices : List (String × LegacyDevice)
  conf : List (String × String)
deriving DecidableEq, Repr

/-- Set one attribute key to a value, overwriting an existing binding
(last write wins per key). -/
def setAttr (attrs : List (String × String)) (k v : String) :
    List (String × String) :=
  if attrs.any (fun p => p.1 == k) then
    attrs.map (fun p => if p.1 == k then (k, v) else p)
  else attrs ++ [(k, v)]

/-- Merge new attribute bindings into old ones, last write wins per key. -/
def mergeAttrs (old new : List (String × String)) :
    List (String × String) :=
  new.foldl (fun a p => setAttr a p.1 p.2) old

/-- Update or create the DeviceRecord of a device name, merging the given
attributes and stamping the given hv_id. -/
def upsertDevice (devs : List (String × LegacyDevice)) (name : String)
    (hv : Nat) (attrs : List (String × String)) :
    List (String × LegacyDevice) :=
  if devs.any (fun p => p.1 == name) then
    devs.map (fun p =>
      if p.1 == name then (name, ⟨hv, mergeAttrs p.2.attrs attrs⟩) else p)
  else devs ++ [(name, ⟨hv, attrs⟩)]

/-- Modelled from the spec: LegacyTopology.add_conf_item
(gns3converter/topology.py, not under src/) routes a configuration item of
an instance into the configuration output. -/
def add_conf_item (t : LegacyTopology) (inst item : String) :
    LegacyTopology :=
  { t with conf := t.conf ++ [(inst, item)] }

/-- Modelled from the spec: LegacyTopology.add_physical_item
(gns3converter/topology.py, not under src/) merges the item's attributes
into the DeviceRecord named by the item, last write wins per key, stamping
the current hv_id counter. -/
def add_physical_item (t : LegacyTopology) (item : String)
    (attrs : List (String × String)) : LegacyTopology :=
  { t with devices := upsertDevice t.devices item t.hv_id attrs }

/-- The body of the item loop of process_topology (lines 100-107): a
dict-valued item whose name is in MODEL_TRANSFORM is a configuration item,
any other dict-valued item is a physical item, and an item whose value is
not a dict falls through the isinstance test with no effect. -/
def process_item (MODEL_TRANSFORM : List String)
    (old_items : List (String × PyVal)) (inst : String)
    (t : LegacyTopology) (item : String) : LegacyTopology :=
  match old_items.lookup item with
  | some (PyVal.dict attrs) =>
    if MODEL_TRANSFORM.contains item then add_conf_item t inst item
    else add_physical_item t item attrs
  | _ => t

/-- The body of the instance loop of process_topology: iterate the
instance's item names in sorted order, then post-increment the hv_id
counter (line 108: once per instance). -/
def process_instance (MODEL_TRANSFORM : List String)
    (old_top : String → List (String × PyVal)) (t : LegacyTopology)
    (inst : String) : LegacyTopology :=
  let t' := (sortLe strLe ((old_top inst).map Prod.fst)).foldl
    (process_item MODEL_TRANSFORM (old_top inst) inst) t
  { t' with hv_id := t'.hv_id + 1 }

/-- Embedding of Converter.process_topology: iterate the sections in
sorted order and return the devices and configuration outputs.  The static
table MODEL_TRANSFORM (gns3converter/models.py, not under src/) is
external read-only data and is passed as the list of its keys. -/
def process_topology (MODEL_TRANSFORM : List String)
    (sections : List String)
    (old_top : String → List (String × PyVal)) :
    List (String × LegacyDevice) × List (String × String) :=
  let t := (sortLe strLe sections).foldl
    (process_instance MODEL_TRANSFORM old_top) ⟨0, [], []⟩
  (t.devices, t.conf)

/-- The claim-side item step, written from the claim: the instance's
position k in the sorted instance list is given explicitly and stamped on
physical items. -/
def spec_item (MODEL_TRANSFORM : List String)
    (old_items : List (String × PyVal)) (inst : String) (k : Nat)
    (acc : List (String × LegacyDevice) × List (String × String))
    (item : String) :
    List (String × LegacyDevice) × List (String × String) :=
  match old_items.lookup item with
  | some (PyVal.dict attrs) =>
    if MODEL_TRANSFORM.contains item then (acc.1, acc.2 ++ [(inst, item)])
    else (upsertDevice acc.1 item k attrs, acc.2)
  | _ => acc

/-- The claim-side instance step: the enumerated position of the instance
in the sorted instance list is used as the hv_id stamp. -/
def spec_instance (MODEL_TRANSFORM : List String)
    (old_top : String → List (String × PyVal))
    (acc : List (String × LegacyDevice) × List (String × String))
    (ki : Nat × String) :
    List (String × LegacyDevice) × List (String × String) :=
  (sortLe strLe ((old_top ki.2).map Prod.fst)).foldl
    (spec_item MODEL_TRANSFORM (old_top ki.2) ki.2 ki.1) acc

/-- The claim-side characterisation of process_topology, written from the
claim: instances in sorted key order paired with their position, items in
sorted name order, configuration items routed by table membership, other
dict items merged with hv_id equal to the instance position. -/
def process_topology_spec (MODEL_TRANSFORM : List String)
    (sections : List String)
    (old_top : String → List (String × PyVal)) :
    List (String × LegacyDevice) × List (String × String) :=
  ((sortLe strLe sections).enum).foldl
    (spec_instance MODEL_TRANSFORM old_top) ([], [])

/- ---------------------------------------------------------------
   Converter.generate_nodes (lines 130-193).
   --------------------------------------------------------------- -/

/-- A device record as read by generate_nodes: an Option field is none
when the dict lacks the key (a lookup of a missing key raises KeyError in
Python).  The remaining attribute items are passed through to the
spec-modelled Node operations and are carried opaquely. -/
structure GnDevice where
  hv_id : Option Nat := none
  node_id : Option Nat := none
  x : Option Int := none
  y : Option Int := none
  type : Option String := none
  model : Option String := none
  items : List (String × String) := []
deriving DecidableEq, Repr

/-- The fields of the built node that the generate_nodes code itself
assigns (lines 143-156).  Modelled from the spec: the Node object's own
operations (set_description, set_type, add_device_items, the Router and
Cloud port and candidate-link synthesis - gns3converter/node.py, not under
src/) degrade to defaults and never fail, and none of them is read by the
claims about generate_nodes, so the built node is embedded by these
fields. -/
structure GnNode where
  name : String
  id : Nat
  x : Int
  y : Int
  model : String
  type : String
deriving DecidableEq, Repr

/-- A Python dict read devices[device][key]: the value when present, a
KeyError otherwise. -/
def ofOpt : Option β → String → Except String β
  | some b, _ => Except.ok b
  | none, e => Except.error e

/-- Sequence a fallible builder over a list, stopping at the first error,
as the Python loop propagates the first exception. -/
def exceptMapM (f : α → Except String β) : List α → Except String (List β)
  | [] => Except.ok []
  | a :: as =>
    match f a with
    | Except.error e => Except.error e
    | Except.ok b =>
      match exceptMapM f as with
      | Except.error e => Except.error e
      | Except.ok bs => Except.ok (b :: bs)

/-- The body of the device loop of generate_nodes, with the dict and list
reads in source order: hv_id (line 140), the hypervisors index (line 141),
node_id, x, y (145-147), type (148, an unguarded dict read), and the
guarded model read defaulting to the empty string (150-153). -/
def build_node (hypervisors : List α) (p : String × GnDevice) :
    Except String GnNode :=
  match ofOpt p.2.hv_id ("KeyError: hv_id") with
  | Except.error e => Except.error e
  | Except.ok hv =>
    match ofOpt (hypervisors.get? hv) ("IndexError: hypervisors") with
    | Except.error e => Except.error e
    | Except.ok _ =>
      match ofOpt p.2.node_id ("KeyError: node_id") with
      | Except.error e => Except.error e
      | Except.ok nid =>
        match ofOpt p.2.x ("KeyError: x") with
        | Except.error e => Except.error e
        | Except.ok x =>
          match ofOpt p.2.y ("KeyError: y") with
          | Except.error e => Except.error e
          | Except.ok y =>
            match ofOpt p.2.type ("KeyError: type") with
            | Except.error e => Except.error e
            | Except.ok ty =>
              let model := match p.2.model with
                | some m => m
                | none => ("")
              Except.ok ⟨p.1, nid, x, y, model, ty⟩

/-- Embedding of Converter.generate_nodes: devices in sorted name order,
each built by build_node, the first KeyError or IndexError aborting the
loop. -/
def generate_nodes (devices : List (String × GnDevice))
    (hypervisors : List α) : Except String (List GnNode) :=
  exceptMapM (build_node hypervisors)
    (sortLe (fun a b => strLe a.1 b.1) devices)

/- ---------------------------------------------------------------
   Concrete inputs used by the counterexample and scenario theorems.
   --------------------------------------------------------------- -/

/-- Two nodes A and B, each with one port; the port names do not match the
interface shorthand, so they resolve unchanged. -/
def exNodes : List Node :=
  [⟨1, "A", "Router", [⟨1, "nA", none, none⟩]⟩,
   ⟨2, "B", "Router", [⟨2, "nB", none, none⟩]⟩]

/-- Four candidate links: two fillers whose sources are no node's port,
then the mirrored pair between A port nA and B port nB.  Resolving them in
order gives destination pairs (2,2), (1,1), (2,2), (1,1); when the dedup
scan reaches the third link it removes the second (an earlier index), the
cursor then skips over the fourth link, and the mirrored pair survives in
full. -/
def exCands : List CandidateLink :=
  [⟨3, 3, "p3", "C", "B", "nB"⟩,
   ⟨4, 4, "p4", "D", "A", "nA"⟩,
   ⟨1, 1, "nA", "A", "B", "nB"⟩,
   ⟨2, 2, "nB", "B", "A", "nA"⟩]

/-- Scenario A of the spec: routers R1 and R2, one FastEthernet0/0 port
each, with mirrored candidate links written with the f0/0 shorthand. -/
def exANodes : List Node :=
  [⟨1, "R1", "Router", [⟨1, "FastEthernet0/0", none, none⟩]⟩,
   ⟨2, "R2", "Router", [⟨2, "FastEthernet0/0", none, none⟩]⟩]

/-- The mirrored candidate links of scenario A. -/
def exACands : List CandidateLink :=
  [⟨1, 1, "FastEthernet0/0", "R1", "R2", "f0/0"⟩,
   ⟨2, 2, "FastEthernet0/0", "R2", "R1", "f0/0"⟩]

/-- Two Cloud nodes; only the second owns a port named b. -/
def exC3 : List Node :=
  [⟨10, "Cloud1", "Cloud", [⟨7, "a", none, none⟩]⟩,
   ⟨11, "Cloud2", "Cloud", [⟨8, "b", none, none⟩]⟩]

/-- A non-Cloud node, used as the part of a node list before the first
Cloud. -/
def exC3pre : List Node := [⟨1, "R", "Router", []⟩]

/-- A Cloud node owning a port named b, used as the first Cloud of a node
list. -/
def exC3cloud : Node := ⟨20, "C1", "Cloud", [⟨9, "b", none, none⟩]⟩

/-- A candidate link whose destination device Z matches no node. -/
def exC4cand : CandidateLink := ⟨5, 6, "p", "S", "Z", "zp"⟩

/-- A device record missing only the type key. -/
def exC6bad : List (String × GnDevice) :=
  [("R1", { hv_id := some 0, node_id := some 1, x := some 0, y := some 0,
            type := none, model := some ("c7200") })]

/-- A device record missing only the model key. -/
def exC6good : List (String × GnDevice) :=
  [("R", { hv_id := some 0, node_id := some 7, x := some 1, y := some 2,
           type := some ("Router"), model := none })]

/-- The source endpoint pair of every link whose destination matched no
node, field by field. -/
def unresolvedSrc (a b : Nat) (l : Link) : Prop :=
  l.source_node_id = a ∧ l.source_port_id = b ∧
  l.destination_node_id = none ∧ l.destination_port_id = none

/-- The practical completeness of a device record: hv_id present and a
valid index into the hypervisors list, and the node_id, x, y and type keys
present.  The model key is deliberately unconstrained. -/
def GnComplete (hlen : Nat) (d : GnDevice) : Prop :=
  d.hv_id ≠ none ∧ d.hv_id.getD 0 < hlen ∧ d.node_id ≠ none ∧
  d.x ≠ none ∧ d.y ≠ none ∧ d.type ≠ none

instance (hlen : Nat) (d : GnDevice) : Decidable (GnComplete hlen d) := by
  unfold GnComplete
  infer_instance

/-- The node generate_nodes builds for a complete record: each read key
taken from the record, the model key defaulting to the empty string when
absent. -/
def buildNodeD (p : String × GnDevice) : GnNode :=
  ⟨p.1, p.2.node_id.getD 0, p.2.x.getD 0, p.2.y.getD 0,
    (match p.2.model with | some m => m | none => ("")),
    p.2.type.getD ("")⟩

/-- The per-port frame of add_node_connections: the port's id and name are
untouched, and the port is either completely unchanged or sits at a
claimed position - the source port of the source node or the destination
port of the destination node (only link_id and description may then
differ). -/
def portFrame (link : Link) (nid : Nat) (p q : Port) : Prop :=
  q.id = p.id ∧ q.name = p.name ∧
    (q = p ∨ (nid = link.source_node_id ∧ p.id = link.source_port_id) ∨
      (some nid = link.destination_node_id ∧
        some p.id = link.destination_port_id))

/-- The per-port frame for a self link: every port is unchanged except
possibly the source port of the source node. -/
def portSelfFrame (link : Link) (nid : Nat) (p q : Port) : Prop :=
  q = p ∨ (nid = link.source_node_id ∧ p.id = link.source_port_id)

/-- The per-node frame of add_node_connections: id, name and type are
untouched and the ports are related pointwise by portFrame (same number of
ports, same order). -/
def nodeFrame (link : Link) (n m : Node) : Prop :=
  m.id = n.id ∧ m.name = n.name ∧ m.type = n.type ∧
    List.Forall₂ (portFrame link n.id) n.ports m.ports

/-- The per-node frame for a self link. -/
def nodeSelfFrame (link : Link) (n m : Node) : Prop :=
  m.id = n.id ∧ m.name = n.name ∧ m.type = n.type ∧
    List.Forall₂ (portSelfFrame link n.id) n.ports m.ports

/-- A self link: same node on both ends, distinct ports. -/
def exC10link : Link := ⟨"d", some 1, some 2, 1, 1, some 9⟩

/-- One node with two ports, ports 1 and 2. -/
def exC10nodes : List Node :=
  [⟨1, "R1", "Router", [⟨1, "p1", none, none⟩, ⟨2, "p2", none, none⟩]⟩]

/- ---------------------------------------------------------------
   Supporting lemmas and claim theorems.
   --------------------------------------------------------------- -/

/-- Assigning an id key preserves the list length. -/
theorem length_setIdAt : ∀ (l : List Link) (j v : Nat),
    (setIdAt l j v).length = l.length := by
  intro l
  induction l with
  | nil => intro j v; rfl
  | cons a as ih =>
    intro j v
    cases j with
    | zero => rfl
    | succ j => simp [setIdAt, ih]

/-- Removing an index never lengthens the list. -/
theorem length_removeAt_le : ∀ (l : List Link) (j : Nat),
    (removeAt l j).length ≤ l.length := by
  intro l
  induction l with
  | nil => intro j; simp [removeAt]
  | cons a as ih =>
    intro j
    cases j with
    | zero => simp [removeAt]
    | succ j => simpa [removeAt] using Nat.succ_le_succ (ih j)

/-- The fuel of dedupGo is irrelevant once it covers the remaining
iterations: the cursor grows by one per step and the list never grows, so
seeding the fuel with the initial list length (as generate_links does)
embeds the unbounded Python loop exactly. -/
theorem dedupGo_fuel : ∀ (m n : Nat) (links : List Link) (i next_id : Nat),
    links.length - i ≤ m → links.length - i ≤ n →
    dedupGo m links i next_id = dedupGo n links i next_id := by
  intro m
  induction m with
  | zero =>
    intro n links i nid hm hn
    have hi : ¬ i < links.length := by omega
    cases n with
    | zero => rfl
    | succ n =>
      simp only [dedupGo]
      rw [dif_neg hi]
  | succ m ih =>
    intro n links i nid hm hn
    by_cases hi : i < links.length
    · cases n with
      | zero => omega
      | succ n =>
        simp only [dedupGo]
        rw [dif_pos hi, dif_pos hi]
        cases hf : findD
            (fun l2 => dlink l2 == tlink (links.get ⟨i, hi⟩)) links with
        | none =>
          simp only [hf]
          apply ih
          · rw [length_setIdAt]
            omega
          · rw [length_setIdAt]
            omega
        | some j =>
          simp only [hf]
          have hrem := length_removeAt_le links j
          by_cases hji : j = i
          · rw [if_pos hji, if_pos hji]
            apply ih <;> omega
          · rw [if_neg hji, if_neg hji]
            by_cases hlt : j < i
            · rw [if_pos hlt, if_pos hlt]
              apply ih <;> rw [length_setIdAt] <;> omega
            · rw [if_neg hlt, if_neg hlt]
              apply ih <;> rw [length_setIdAt] <;> omega
    · cases n with
      | zero =>
        simp only [dedupGo]
        rw [dif_neg hi]
      | succ n =>
        simp only [dedupGo]
        rw [dif_neg hi, dif_neg hi]

/-- C1: the claim that the link list returned by generate_links never
contains two links denoting the same undirected edge fails on the code:
on exCands and exNodes the returned list holds both a link from (1,1) to
(2,2) and a link from (2,2) to (1,1), because removing an earlier element
of the live list during the dedup scan shifts the cursor past the mirror
link before its duplicate test runs. -/
theorem generate_links_duplicate_undirected_edge :
    (generate_links exCands exNodes).length = 3 ∧
    ∃ l1 ∈ generate_links exCands exNodes,
      ∃ l2 ∈ generate_links exCands exNodes,
        l1 ≠ l2 ∧
        l2.destination_node_id = some l1.source_node_id ∧
        l2.destination_port_id = some l1.source_port_id ∧
        l1.destination_node_id = some l2.source_node_id ∧
        l1.destination_port_id = some l2.source_port_id := by
  decide

/-- C2: the claim that every returned link carries an id and that the ids
are exactly 1, 2, 3, ... over the surviving links fails on the code: on
exCands and exNodes the returned links carry the ids 1, 3 and no id at
all - the removal of an earlier element shifts the cursor, one surviving
link is never visited, and the id of a link that was later removed is
never reused. -/
theorem generate_links_id_gap_and_missing :
    (generate_links exCands exNodes).map (fun l => l.id)
      = [some 1, some 3, none] := by
  decide

/-- C8: scenario A holds on the code: two router nodes with one port each
and the mirrored candidate pair produce exactly one link, with id 1,
joining port 1 of node 1 to port 2 of node 2. -/
theorem generate_links_scenario_a :
    exANodes.length = 2 ∧ (∀ n ∈ exANodes, n.ports.length = 1) ∧
    generate_links exACands exANodes =
      [⟨"Link from R1 port FastEthernet0/0 to R2 port FastEthernet0/0",
        some 2, some 2, 1, 1, some 1⟩] := by
  decide

/-- C3, counterexample: on a node set with two Cloud nodes where only the
second Cloud owns a port named b, convert_destination_to_id called with
the NIO sentinel returns null ids, although a Cloud of the set does own a
matching port - the claim that all Cloud nodes are searched is false. -/
theorem convert_nio_second_cloud_missed :
    (∃ n ∈ exC3, n.type = "Cloud" ∧ ∃ p ∈ n.ports, p.name = "b") ∧
    2 ≤ (exC3.filter (fun n => n.type == ("Cloud"))).length ∧
    convert_destination_to_id "NIO" "b" exC3 = ⟨none, none, none⟩ := by
  decide

/-- C5, counterexample: an instance item whose value is not a dict leaves
no trace in either output of process_topology and produces no error: the
claim that such an item is surfaced as an error rather than silently
dropped is false (the function has no error channel at all). -/
theorem process_topology_drops_scalar_item :
    process_topology [] ["i"] (fun _ => [("x", PyVal.scalar "v")])
      = ([], []) := by
  decide

/-- C6, counterexample: a device record missing the type key makes
generate_nodes raise a KeyError (line 148 reads the key unguarded), so
the claim that generate_nodes completes without raising when type is
absent is false. -/
theorem generate_nodes_missing_type_raises :
    generate_nodes exC6bad [()] = Except.error ("KeyError: type") := by
  rfl

/-- The first match of a list made of a prefix of non-matches, a match and
a remainder is that match. -/
theorem find?_append_first {α : Type} (p : α → Bool) (pre : List α) (c : α)
    (rest : List α) (hpre : ∀ x ∈ pre, p x = false) (hc : p c = true) :
    (pre ++ c :: rest).find? p = some c := by
  induction pre with
  | nil => simp [List.find?, hc]
  | cons a pre ih =>
    have ha : p a = false := hpre a (by simp)
    simp only [List.cons_append, List.find?, ha]
    exact ih (fun x hx => hpre x (by simp [hx]))

/-- C3, amended: with the NIO sentinel, convert_destination_to_id consults
only the first node of type Cloud: it returns that node's matching port
ids if present and null ids otherwise, and the nodes after the first Cloud
never influence the result. -/
theorem convert_nio_first_cloud_only (pre : List Node) (c : Node)
    (rest : List Node) (dport : String)
    (hpre : ∀ n ∈ pre, n.type ≠ "Cloud") (hc : c.type = "Cloud") :
    convert_destination_to_id "NIO" dport (pre ++ c :: rest) =
      match c.ports.find? (fun p => p.name == dport) with
      | some p => ⟨some c.id, some c.name, some p.id⟩
      | none => ⟨none, none, none⟩ := by
  have hfind : (pre ++ c :: rest).find? (fun n => n.type == ("Cloud"))
      = some c := by
    apply find?_append_first
    · intro x hx
      simpa using hpre x hx
    · simpa using hc
  simp only [convert_destination_to_id, hfind]
  norm_num

/-- C3, amended claim at a concrete input: a router, then a Cloud owning
port b, then further Clouds; the result is the first Cloud's port. -/
theorem convert_nio_first_cloud_only_witness :
    (∀ n ∈ exC3pre, n.type ≠ "Cloud") ∧ exC3cloud.type = "Cloud" ∧
    convert_destination_to_id "NIO" "b" (exC3pre ++ exC3cloud :: exC3) =
      ⟨some 20, some "C1", some 9⟩ :=
  ⟨by decide, rfl,
    convert_nio_first_cloud_only exC3pre exC3cloud exC3 "b"
      (by decide) rfl⟩

/-- C5, amended: the item step of process_topology either classifies the
item - its value is a dict, and it goes to the configuration output when
its name is in the static table and to the device records otherwise - or,
when the item's value is not a dict, leaves the accumulated state
completely unchanged (silently skipped, no error). -/
theorem process_item_classifies_or_skips (MODEL_TRANSFORM : List String)
    (old_items : List (String × PyVal)) (inst : String)
    (t : LegacyTopology) (item : String) :
    (∃ attrs, old_items.lookup item = some (PyVal.dict attrs) ∧
      process_item MODEL_TRANSFORM old_items inst t item =
        (if MODEL_TRANSFORM.contains item then add_conf_item t inst item
         else add_physical_item t item attrs)) ∨
    (process_item MODEL_TRANSFORM old_items inst t item = t ∧
      ∀ attrs, old_items.lookup item ≠ some (PyVal.dict attrs)) := by
  unfold process_item
  cases hl : old_items.lookup item with
  | none => exact Or.inr ⟨rfl, by simp⟩
  | some v =>
    cases v with
    | dict attrs => exact Or.inl ⟨attrs, rfl, rfl⟩
    | scalar s =>
      refine Or.inr ⟨rfl, ?_⟩
      intro attrs h
      simp at h

/-- C5, amended claim at a concrete input: a scalar-valued item leaves the
state unchanged. -/
theorem process_item_classifies_or_skips_witness :
    (∃ attrs,
      List.lookup "x" [("x", PyVal.scalar "v")] = some (PyVal.dict attrs) ∧
      process_item [] [("x", PyVal.scalar "v")] "i" ⟨0, [], []⟩ "x" =
        (if List.contains [] "x" then add_conf_item ⟨0, [], []⟩ "i" "x"
         else add_physical_item ⟨0, [], []⟩ "x" attrs)) ∨
    (process_item [] [("x", PyVal.scalar "v")] "i" ⟨0, [], []⟩ "x"
        = ⟨0, [], []⟩ ∧
      ∀ attrs,
        List.lookup "x" [("x", PyVal.scalar "v")]
          ≠ some (PyVal.dict attrs)) :=
  process_item_classifies_or_skips [] [("x", PyVal.scalar "v")] "i"
    ⟨0, [], []⟩ "x"

/-- A complete record builds without error, yielding buildNodeD. -/
theorem build_node_complete (hypervisors : List α) (p : String × GnDevice)
    (h : GnComplete hypervisors.length p.2) :
    build_node hypervisors p = Except.ok (buildNodeD p) := by
  obtain ⟨h1, h2, h3, h4, h5, h6⟩ := h
  cases hhv : p.2.hv_id with
  | none => exact absurd hhv h1
  | some hv =>
    cases hnid : p.2.node_id with
    | none => exact absurd hnid h3
    | some nid =>
      cases hx : p.2.x with
      | none => exact absurd hx h4
      | some x =>
        cases hy : p.2.y with
        | none => exact absurd hy h5
        | some y =>
          cases hty : p.2.type with
          | none => exact absurd hty h6
          | some ty =>
            have hlt : hv < hypervisors.length := by
              rw [hhv] at h2
              simpa using h2
            have hget : hypervisors[hv]? = some hypervisors[hv] :=
              List.getElem?_eq_getElem hlt
            simp [build_node, ofOpt, hhv, hnid, hx, hy, hty, hget,
              buildNodeD]

/-- Mapping a fallible builder that succeeds on every element succeeds
with the mapped list. -/
theorem exceptMapM_ok (f : α → Except String β) (g : α → β)
    (l : List α) (h : ∀ x ∈ l, f x = Except.ok (g x)) :
    exceptMapM f l = Except.ok (l.map g) := by
  induction l with
  | nil => rfl
  | cons a as ih =>
    have ha : f a = Except.ok (g a) := h a (by simp)
    have has : exceptMapM f as = Except.ok (as.map g) :=
      ih (fun x hx => h x (by simp [hx]))
    simp [exceptMapM, ha, has]

/-- Membership is preserved by the insertion step. -/
theorem mem_insertLe {le : α → α → Bool} {a x : α} {l : List α} :
    x ∈ insertLe le a l ↔ x = a ∨ x ∈ l := by
  induction l with
  | nil => simp [insertLe]
  | cons b bs ih =>
    unfold insertLe
    by_cases hle : le a b = true
    · rw [if_pos hle]
      simp
    · rw [if_neg hle]
      simp only [List.mem_cons, ih]
      tauto

/-- Sorting preserves membership. -/
theorem mem_sortLe {le : α → α → Bool} {x : α} {l : List α} :
    x ∈ sortLe le l ↔ x ∈ l := by
  induction l with
  | nil => simp [sortLe]
  | cons a as ih => simp [sortLe, mem_insertLe, ih]

/-- C6, amended: when every record carries its hv_id (a valid hypervisor
index), node_id, x, y and type keys, generate_nodes completes without
raising whether or not the model key is present, and each built node's
model is the record's model defaulting to the empty string (buildNodeD). -/
theorem generate_nodes_missing_model_defaults
    (devices : List (String × GnDevice)) (hypervisors : List α)
    (h : ∀ p ∈ devices, GnComplete hypervisors.length p.2) :
    generate_nodes devices hypervisors =
      Except.ok ((sortLe (fun a b => strLe a.1 b.1) devices).map
        buildNodeD) := by
  unfold generate_nodes
  apply exceptMapM_ok
  intro p hp
  exact build_node_complete hypervisors p (h p (mem_sortLe.mp hp))

/-- C6, amended claim at a concrete input: one record missing only its
model key builds successfully into a node whose model is the empty
string. -/
theorem generate_nodes_missing_model_defaults_witness :
    (∀ p ∈ exC6good, GnComplete (List.length [()]) p.2) ∧
    generate_nodes exC6good [()] =
      Except.ok [⟨"R", 7, 1, 2, "", "Router"⟩] :=
  ⟨by decide, generate_nodes_missing_model_defaults exC6good [()]
    (by decide)⟩

/-- A fold that appends the elements passing a test collects exactly the
filtered list. -/
theorem foldl_select_filter {α : Type} (p : α → Bool) :
    ∀ (l acc : List α),
      l.foldl (fun a x => if p x then a ++ [x] else a) acc
        = acc ++ l.filter p := by
  intro l
  induction l with
  | nil => intro acc; simp
  | cons x xs ih =>
    intro acc
    by_cases hp : p x = true
    · simp [List.foldl_cons, hp, ih, List.filter_cons]
    · simp [List.foldl_cons, hp, ih, List.filter_cons]

/-- C9: get_instances returns exactly the configuration keys, in sorted
order, that contain a colon and whose text before the first colon is a
valid address; every other key is excluded, and the embedded try-except
around the address check means no exception escapes for any key (the
function is total for every validity predicate, ip_address being Python
standard library abstracted as valid_ip). -/
theorem get_instances_eq_spec (valid_ip : String → Bool)
    (config : List String) :
    get_instances valid_ip config = get_instances_spec valid_ip config := by
  unfold get_instances get_instances_spec
  have hbody : (fun (instances : List String) (item : String) =>
      if item.contains ':' then
        if valid_ip (item.takeWhile (fun ch => ch ≠ ':')) then
          instances ++ [item]
        else instances
      else instances)
      = (fun (a : List String) (x : String) =>
          if (x.contains ':'
              && valid_ip (x.takeWhile (fun ch => ch ≠ ':'))) then
            a ++ [x]
          else a) := by
    funext a x
    by_cases h1 : x.contains ':' = true
    · by_cases h2 : valid_ip (x.takeWhile (fun ch => ch ≠ ':')) = true
      · simp [h1, h2]
      · simp [h1, h2]
    · simp [h1]
  rw [hbody, foldl_select_filter]
  simp

/-- The first matching index found by findD holds a matching element. -/
theorem findD_get? (p : Link → Bool) :
    ∀ (l : List Link) (j : Nat), findD p l = some j →
      ∃ x, l.get? j = some x ∧ p x = true := by
  intro l
  induction l with
  | nil => intro j h; simp [findD] at h
  | cons a as ih =>
    intro j h
    by_cases hp : p a = true
    · rw [findD, if_pos hp] at h
      cases h
      exact ⟨a, rfl, hp⟩
    · rw [findD, if_neg hp] at h
      rcases Option.map_eq_some'.mp h with ⟨j', hj', rfl⟩
      rcases ih j' hj' with ⟨x, hx, hpx⟩
      exact ⟨x, by simpa using hx, hpx⟩

/-- An element of a list survives the removal of an index unless it is the
very element sitting at that index. -/
theorem mem_removeAt_or {y : Link} :
    ∀ (l : List Link) (j : Nat), y ∈ l →
      y ∈ removeAt l j ∨ l.get? j = some y := by
  intro l
  induction l with
  | nil => intro j h; cases h
  | cons a as ih =>
    intro j h
    cases j with
    | zero =>
      rcases List.mem_cons.mp h with h | h
      · exact Or.inr (by simp [h])
      · exact Or.inl (by simpa [removeAt])
    | succ j =>
      rcases List.mem_cons.mp h with h | h
      · exact Or.inl (by simp [removeAt, h])
      · rcases ih j h with h' | h'
        · exact Or.inl (by simp [removeAt, h'])
        · exact Or.inr (by simpa using h')

/-- An element of a list survives an id assignment at an index either
unchanged or with its id key updated. -/
theorem mem_setIdAt_or {y : Link} :
    ∀ (l : List Link) (j v : Nat), y ∈ l →
      y ∈ setIdAt l j v ∨ { y with id := some v } ∈ setIdAt l j v := by
  intro l
  induction l with
  | nil => intro j v h; cases h
  | cons a as ih =>
    intro j v h
    cases j with
    | zero =>
      rcases List.mem_cons.mp h with h | h
      · subst h; exact Or.inr (by simp [setIdAt])
      · exact Or.inl (by simp [setIdAt, h])
    | succ j =>
      rcases List.mem_cons.mp h with h | h
      · exact Or.inl (by simp [setIdAt, h])
      · rcases ih j v h with h' | h'
        · exact Or.inl (by simp [setIdAt, h'])
        · exact Or.inr (by simp [setIdAt, h'])

/-- Id assignment never creates or destroys an unresolved-destination
source pair. -/
theorem exists_unresolved_setIdAt {a b : Nat} {l : List Link} {j v : Nat}
    (h : ∃ x ∈ l, unresolvedSrc a b x) :
    ∃ x ∈ setIdAt l j v, unresolvedSrc a b x := by
  obtain ⟨x, hx, hq⟩ := h
  rcases mem_setIdAt_or l j v hx with h' | h'
  · exact ⟨x, h', hq⟩
  · exact ⟨{ x with id := some v }, h', hq⟩

/-- Removing an element whose destination node id is present never
destroys an unresolved-destination source pair. -/
theorem exists_unresolved_removeAt {a b : Nat} {l : List Link} {j : Nat}
    {x : Link} (hget : l.get? j = some x)
    (hx : x.destination_node_id ≠ none)
    (h : ∃ y ∈ l, unresolvedSrc a b y) :
    ∃ y ∈ removeAt l j, unresolvedSrc a b y := by
  obtain ⟨y, hy, hq⟩ := h
  rcases mem_removeAt_or l j hy with h' | h'
  · exact ⟨y, h', hq⟩
  · rw [hget] at h'
    cases h'
    exact absurd hq.2.2.1 hx

/-- The dedup-and-number loop never removes a link whose destination ids
are null: removal only strikes a link whose d_link equals some t_link,
and every t_link has both components present. -/
theorem dedupGo_preserves_unresolved (a b : Nat) :
    ∀ (fuel : Nat) (links : List Link) (i next_id : Nat),
      (∃ l ∈ links, unresolvedSrc a b l) →
      ∃ l ∈ dedupGo fuel links i next_id, unresolvedSrc a b l := by
  intro fuel
  induction fuel with
  | zero => intro links i nid h; exact h
  | succ fuel ih =>
    intro links i nid h
    unfold dedupGo
    by_cases hlen : i < links.length
    · rw [dif_pos hlen]
      cases hf : findD
          (fun l2 => dlink l2 == tlink (links.get ⟨i, hlen⟩)) links with
      | none =>
        simp only
        exact ih _ _ _ (exists_unresolved_setIdAt h)
      | some j =>
        simp only
        obtain ⟨x, hgx, hpx⟩ := findD_get? _ links j hf
        have hxd : x.destination_node_id ≠ none := by
          have heq : dlink x = tlink (links.get ⟨i, hlen⟩) := by
            simpa using hpx
          have hfst := congrArg Prod.fst heq
          simp only [dlink, tlink] at hfst
          simp [hfst]
        have h' := exists_unresolved_removeAt hgx hxd h
        by_cases hji : j = i
        · rw [if_pos hji]
          exact ih _ _ _ h'
        · rw [if_neg hji]
          by_cases hlt : j < i
          · rw [if_pos hlt]
            exact ih _ _ _ (exists_unresolved_setIdAt h')
          · rw [if_neg hlt]
            exact ih _ _ _ (exists_unresolved_setIdAt h')
    · rw [dif_neg hlen]
      exact h

/-- C4: a candidate link whose destination device name matches no node is
neither dropped nor an error: generate_links (a total function) still
returns a link entry carrying the candidate's source ids whose destination
node and port ids are both null, for the caller to detect. -/
theorem generate_links_unresolved_dest_null (cands : List CandidateLink)
    (nodes : List Node) (c : CandidateLink) (hc : c ∈ cands)
    (hnio : c.dest_dev ≠ "NIO")
    (hmiss : ∀ n ∈ nodes, n.name ≠ c.dest_dev) :
    ∃ l ∈ generate_links cands nodes,
      l.source_node_id = c.source_node_id ∧
      l.source_port_id = c.source_port_id ∧
      l.destination_node_id = none ∧
      l.destination_port_id = none := by
  have hfind : nodes.find? (fun n => n.name == c.dest_dev) = none := by
    rw [List.find?_eq_none]
    intro n hn
    simpa using hmiss n hn
  have hconv : convert_destination_to_id c.dest_dev
      (expand_dest_port c.dest_port) nodes = ⟨none, none, none⟩ := by
    unfold convert_destination_to_id
    rw [if_pos hnio, hfind]
  have hres : unresolvedSrc c.source_node_id c.source_port_id
      (resolve_candidate nodes c) := by
    refine ⟨rfl, rfl, ?_, ?_⟩
    · show (convert_destination_to_id c.dest_dev
        (expand_dest_port c.dest_port) nodes).device_id = none
      rw [hconv]
    · show (convert_destination_to_id c.dest_dev
        (expand_dest_port c.dest_port) nodes).port_id = none
      rw [hconv]
  have hmem : resolve_candidate nodes c
      ∈ cands.map (resolve_candidate nodes) :=
    List.mem_map_of_mem _ hc
  exact dedupGo_preserves_unresolved _ _ _ _ _ _ ⟨_, hmem, hres⟩

/-- C4 at a concrete input: one candidate pointing at the absent device Z
over an empty node set yields a surviving link with null destination
ids. -/
theorem generate_links_unresolved_dest_null_witness :
    exC4cand ∈ [exC4cand] ∧ exC4cand.dest_dev ≠ "NIO" ∧
    (∀ n ∈ ([] : List Node), n.name ≠ exC4cand.dest_dev) ∧
    ∃ l ∈ generate_links [exC4cand] [],
      l.source_node_id = exC4cand.source_node_id ∧
      l.source_port_id = exC4cand.source_port_id ∧
      l.destination_node_id = none ∧
      l.destination_port_id = none :=
  ⟨by decide, by decide, by decide,
    generate_links_unresolved_dest_null [exC4cand] [] exC4cand
      (by decide) (by decide) (by decide)⟩

/-- The item step never touches the hv_id counter. -/
theorem process_item_hv_id (MODEL_TRANSFORM : List String)
    (old_items : List (String × PyVal)) (inst : String)
    (t : LegacyTopology) (item : String) :
    (process_item MODEL_TRANSFORM old_items inst t item).hv_id
      = t.hv_id := by
  unfold process_item
  cases old_items.lookup item with
  | none => rfl
  | some v =>
    cases v with
    | dict attrs =>
      cases h : MODEL_TRANSFORM.contains item with
      | true => simp only [h]; rfl
      | false => simp only [h]; rfl
    | scalar s => rfl

/-- The whole item loop of one instance never touches the hv_id
counter. -/
theorem itemsFold_hv_id (MODEL_TRANSFORM : List String)
    (old_items : List (String × PyVal)) (inst : String) :
    ∀ (items : List String) (t : LegacyTopology),
      (items.foldl (process_item MODEL_TRANSFORM old_items inst) t).hv_id
        = t.hv_id := by
  intro items
  induction items with
  | nil => intro t; rfl
  | cons it items ih =>
    intro t
    rw [List.foldl_cons, ih,
      process_item_hv_id MODEL_TRANSFORM old_items inst t it]

/-- One item step seen on the devices and configuration outputs is the
claim-side step at position equal to the current counter. -/
theorem process_item_devconf (MODEL_TRANSFORM : List String)
    (old_items : List (String × PyVal)) (inst : String)
    (t : LegacyTopology) (item : String) :
    ((process_item MODEL_TRANSFORM old_items inst t item).devices,
      (process_item MODEL_TRANSFORM old_items inst t item).conf)
      = spec_item MODEL_TRANSFORM old_items inst t.hv_id
          (t.devices, t.conf) item := by
  unfold process_item spec_item
  cases old_items.lookup item with
  | none => rfl
  | some v =>
    cases v with
    | dict attrs =>
      cases h : MODEL_TRANSFORM.contains item with
      | true => simp only [h]; rfl
      | false => simp only [h]; rfl
    | scalar s => rfl

/-- The item loop of one instance seen on the devices and configuration
outputs is the claim-side loop at position equal to the counter on
entry. -/
theorem itemsFold_devconf (MODEL_TRANSFORM : List String)
    (old_items : List (String × PyVal)) (inst : String) :
    ∀ (items : List String) (t : LegacyTopology),
      ((items.foldl (process_item MODEL_TRANSFORM old_items inst) t).devices,
        (items.foldl (process_item MODEL_TRANSFORM old_items inst) t).conf)
      = items.foldl (spec_item MODEL_TRANSFORM old_items inst t.hv_id)
          (t.devices, t.conf) := by
  intro items
  induction items with
  | nil => intro t; rfl
  | cons it items ih =>
    intro t
    rw [List.foldl_cons, List.foldl_cons, ih,
      process_item_hv_id MODEL_TRANSFORM old_items inst t it,
      process_item_devconf MODEL_TRANSFORM old_items inst t it]

/-- The instance loop with counter starting at the hv_id of the entry
state is the claim-side loop over the instances enumerated from that
position, and the counter advances by one per instance. -/
theorem sectionsFold_devconf (MODEL_TRANSFORM : List String)
    (old_top : String → List (String × PyVal)) :
    ∀ (secs : List String) (t : LegacyTopology),
      ((secs.foldl (process_instance MODEL_TRANSFORM old_top) t).devices,
        (secs.foldl (process_instance MODEL_TRANSFORM old_top) t).conf)
      = (List.enumFrom t.hv_id secs).foldl
          (spec_instance MODEL_TRANSFORM old_top) (t.devices, t.conf)
      ∧ (secs.foldl (process_instance MODEL_TRANSFORM old_top) t).hv_id
          = t.hv_id + secs.length := by
  intro secs
  induction secs with
  | nil => intro t; exact ⟨rfl, rfl⟩
  | cons s secs ih =>
    intro t
    have hinner := itemsFold_devconf MODEL_TRANSFORM (old_top s) s
      (sortLe strLe ((old_top s).map Prod.fst)) t
    have hinnerhv := itemsFold_hv_id MODEL_TRANSFORM (old_top s) s
      (sortLe strLe ((old_top s).map Prod.fst)) t
    have hstep_dc :
        ((process_instance MODEL_TRANSFORM old_top t s).devices,
          (process_instance MODEL_TRANSFORM old_top t s).conf)
        = spec_instance MODEL_TRANSFORM old_top (t.devices, t.conf)
            (t.hv_id, s) := by
      unfold process_instance spec_instance
      exact hinner
    have hstep_hv : (process_instance MODEL_TRANSFORM old_top t s).hv_id
        = t.hv_id + 1 := by
      unfold process_instance
      simp [hinnerhv]
    obtain ⟨ihdc, ihhv⟩ := ih (process_instance MODEL_TRANSFORM old_top t s)
    constructor
    · rw [List.foldl_cons, ihdc, hstep_hv, hstep_dc]
      rfl
    · rw [List.foldl_cons]
      rw [ihhv]
      rw [hstep_hv]
      simp only [List.length_cons]
      omega

/-- C7: process_topology equals its claim-side recomputation: instances in
sorted key order paired with their position in that order, each instance's
items in sorted name order, dict items in the static table routed to the
configuration output and every other dict item merged into the device
records stamped with the instance position - the counter being
incremented exactly once per instance. -/
theorem process_topology_eq_spec (MODEL_TRANSFORM : List String)
    (sections : List String)
    (old_top : String → List (String × PyVal)) :
    process_topology MODEL_TRANSFORM sections old_top
      = process_topology_spec MODEL_TRANSFORM sections old_top := by
  unfold process_topology process_topology_spec
  have h := (sectionsFold_devconf MODEL_TRANSFORM old_top
    (sortLe strLe sections) ⟨0, [], []⟩).1
  exact h

/-- The inner port loop keeps ids and names and changes at most the first
port whose id matches. -/
theorem annotate_port_frame (pid lid : Option Nat) (d : String) :
    ∀ ports : List Port,
      List.Forall₂ (fun p q => q.id = p.id ∧ q.name = p.name ∧
        (q = p ∨ some p.id = pid)) ports (annotate_port pid lid d ports) := by
  intro ports
  induction ports with
  | nil => exact List.Forall₂.nil
  | cons p ps ih =>
    unfold annotate_port
    by_cases h : (some p.id == pid) = true
    · rw [if_pos h]
      refine List.Forall₂.cons ⟨rfl, rfl, Or.inr ?_⟩ ?_
      · simpa using h
      · exact List.forall₂_same.mpr (fun x _ => ⟨rfl, rfl, Or.inl rfl⟩)
    · rw [if_neg h]
      exact List.Forall₂.cons ⟨rfl, rfl, Or.inl rfl⟩ ih

/-- C10: add_node_connections keeps every node's id, name, type and port
list shape; a port can differ from its input only in link_id and
description and only when it is the port the link names on the matching
node (source port of the source node, or destination port of the
destination node); and for a self link - destination node id equal to the
source node id - only the source port is annotated: every other port of
every node, including the self link's destination port when distinct, is
completely unchanged (the destination branch is an elif, unreachable on
the source node). -/
theorem add_node_connections_frame (link : Link) (nodes : List Node) :
    List.Forall₂ (nodeFrame link) nodes (add_node_connections link nodes) ∧
    (link.destination_node_id = some link.source_node_id →
      List.Forall₂ (nodeSelfFrame link) nodes
        (add_node_connections link nodes)) := by
  have hunf : add_node_connections link nodes = nodes.map (fun n =>
      if n.id = link.source_node_id then
        { n with ports := (annotate_port (some link.source_port_id) link.id
            (src_desc link nodes) n.ports) }
      else if some n.id = link.destination_node_id then
        { n with ports := (annotate_port link.destination_port_id link.id
            (dest_desc link nodes) n.ports) }
      else n) := rfl
  constructor
  · rw [hunf, List.forall₂_map_right_iff]
    refine List.forall₂_same.mpr ?_
    intro n _
    by_cases h1 : n.id = link.source_node_id
    · rw [if_pos h1]
      refine ⟨rfl, rfl, rfl, ?_⟩
      refine List.Forall₂.imp ?_
        (annotate_port_frame (some link.source_port_id) link.id _ n.ports)
      rintro p q ⟨hid, hname, hq | hpid⟩
      · exact ⟨hid, hname, Or.inl hq⟩
      · exact ⟨hid, hname, Or.inr (Or.inl ⟨h1, Option.some.inj hpid⟩)⟩
    · rw [if_neg h1]
      by_cases h2 : some n.id = link.destination_node_id
      · rw [if_pos h2]
        refine ⟨rfl, rfl, rfl, ?_⟩
        refine List.Forall₂.imp ?_
          (annotate_port_frame link.destination_port_id link.id _ n.ports)
        rintro p q ⟨hid, hname, hq | hpid⟩
        · exact ⟨hid, hname, Or.inl hq⟩
        · exact ⟨hid, hname, Or.inr (Or.inr ⟨h2, hpid⟩)⟩
      · rw [if_neg h2]
        exact ⟨rfl, rfl, rfl,
          List.forall₂_same.mpr (fun p _ => ⟨rfl, rfl, Or.inl rfl⟩)⟩
  · intro hd
    rw [hunf, List.forall₂_map_right_iff]
    refine List.forall₂_same.mpr ?_
    intro n _
    by_cases h1 : n.id = link.source_node_id
    · rw [if_pos h1]
      refine ⟨rfl, rfl, rfl, ?_⟩
      refine List.Forall₂.imp ?_
        (annotate_port_frame (some link.source_port_id) link.id _ n.ports)
      rintro p q ⟨_, _, hq | hpid⟩
      · exact Or.inl hq
      · exact Or.inr ⟨h1, Option.some.inj hpid⟩
    · rw [if_neg h1]
      by_cases h2 : some n.id = link.destination_node_id
      · exact absurd (Option.some.inj (h2.trans hd)) h1
      · rw [if_neg h2]
        exact ⟨rfl, rfl, rfl,
          List.forall₂_same.mpr (fun p _ => Or.inl rfl)⟩

/-- C10 at a concrete self link: the frame for self links holds - in
particular the destination port p2 of the self link stays completely
unchanged. -/
theorem add_node_connections_frame_witness :
    exC10link.destination_node_id = some exC10link.source_node_id ∧
    List.Forall₂ (nodeSelfFrame exC10link) exC10nodes
      (add_node_connections exC10link exC10nodes) :=
  ⟨rfl, (add_node_connections_frame exC10link exC10nodes).2 rfl⟩

end Gns3
